import Mathlib

/-!
# Verification of the AutoEngage voice-client core

Shallow embedding of `src/frontend/static/app.js` (the active, uncommented
code at the bottom of the file: `connectWebSocket`, `startWebRTC`,
`startCall`, `streamAudio`, `disconnectCall`, `toggleMute`).

The client is single-threaded and event-driven.  We model its global state
(`ClientState`) explicitly: the list of WebSocket objects ever created (a
global variable holds an index into this list), the pending `setTimeout`
timers, the `RTCPeerConnection`, the `MediaRecorder`, the mute flag, the
`remotePeerId` variable and the UI observables the code writes.  Each JS
event handler or user-facing function becomes a state-transition function;
a function that can throw a `TypeError` (a method call on `undefined`)
returns `Option ClientState`, `none` being the exception.

JSON control messages are embedded as ordered association lists of string
fields, mirroring the object literals passed to `JSON.stringify`.
-/

namespace AutoEngage

/-- A message on a WebSocket's outbound log: either a JSON control message
(ordered field list, as built by `JSON.stringify` on an object literal) or a
binary audio frame (`audioSocket.send(arrayBuffer)`). -/
inductive OutMsg where
  | ctrl (fields : List (String × String))
  | bin (data : List Nat)
deriving DecidableEq

/-- Field lookup in a control message; `none` for a binary frame or a
missing key. -/
def ctrlLookup (k : String) : OutMsg → Option String
  | .ctrl fields => fields.lookup k
  | .bin _ => none

/-- Which `onMessage` closure `startWebRTC` passed to `connectWebSocket`:
the signaling handler (offer/answer/ice-candidate dispatch) or the audio
playback handler. -/
inductive HandlerKind where
  | signaling
  | audio
deriving DecidableEq

/-- WebSocket readyState constants. -/
def wsConnecting : Nat := 0
/-- WebSocket readyState OPEN. -/
def wsOpen : Nat := 1
/-- WebSocket readyState CLOSING. -/
def wsClosing : Nat := 2
/-- WebSocket readyState CLOSED. -/
def wsClosed : Nat := 3

/-- A WebSocket object: its url and handler (closure-captured by the
`onclose` reconnection callback), its readyState, and the log of messages
sent on it (oldest first). -/
structure Socket where
  url : String
  handler : HandlerKind
  readyState : Nat
  sent : List OutMsg
deriving DecidableEq

/-- A pending `setTimeout` created by `socket.onclose`: after `delay` ms it
runs `connectWebSocket(url, onMessage)` (return value discarded). -/
structure Timer where
  delay : Nat
  url : String
  handler : HandlerKind
deriving DecidableEq

/-- The `RTCPeerConnection` held in `localConnection`: whether `close()`
has been called, and whether `setLocalDescription` has run. -/
structure RTCConn where
  closed : Bool
  localDescSet : Bool
deriving DecidableEq

/-- The global mutable state of `app.js`.  `sockets` lists every WebSocket
ever constructed, in creation order; `signalingSocket`/`audioSocket` are the
global variables, holding an index into `sockets` (or `none` for
`undefined`).  `token` is the `access_token` cookie visible to
`connectWebSocket`.  `peerId` is the random peer identity generated at
startup (immutable). -/
structure ClientState where
  token : Option String
  peerId : String
  sockets : List Socket
  timers : List Timer
  signalingSocket : Option Nat
  audioSocket : Option Nat
  localConnection : Option RTCConn
  mediaRecorderActive : Bool
  isMuted : Bool
  remotePeerId : Option String
  callDisabled : Bool
  disconnectDisabled : Bool
  statusText : String
  muteButtonText : String
deriving DecidableEq

/-- Replace the `n`-th element of a list by `f` of it (out of range: no
change); models mutating one socket object among the created ones. -/
def modNth (f : α → α) : Nat → List α → List α
  | _, [] => []
  | 0, a :: l => f a :: l
  | n + 1, a :: l => a :: modNth f n l

/-- `WebSocket.send`: appends to the outbound log when the socket is OPEN;
on a CLOSING/CLOSED socket the browser drops the message silently.  (The
code only ever calls `send` behind a readyState guard or in `onopen`.) -/
def wsSend (m : OutMsg) (s : Socket) : Socket :=
  if s.readyState = wsOpen then { s with sent := s.sent ++ [m] } else s

/-- `WebSocket.close()`: moves a CONNECTING/OPEN socket to CLOSING; a no-op
on a socket already CLOSING or CLOSED. -/
def closeSock (s : Socket) : Socket :=
  if s.readyState = wsClosing ∨ s.readyState = wsClosed then s
  else { s with readyState := wsClosing }

/-- `connectWebSocket(url, onMessage)` (app.js lines 376-409): reads the
`access_token` cookie; with no token it logs an error and returns
`undefined` without any network I/O; otherwise it constructs a new
`WebSocket` (CONNECTING, empty log) and installs the handlers.  Returns the
updated state and the index of the new socket (`none` = `undefined`). -/
def connectWebSocket (url : String) (h : HandlerKind) (st : ClientState) :
    ClientState × Option Nat :=
  match st.token with
  | none => (st, none)
  | some _ =>
      ({ st with sockets := st.sockets ++ [⟨url, h, wsConnecting, []⟩] },
       some st.sockets.length)

/-- The auth control message `socket.onopen` sends:
`JSON.stringify({ type: "auth", token: token })` (app.js line 390). -/
def authMsg (tok : String) : OutMsg :=
  .ctrl [("type", "auth"), ("token", tok)]

/-- The browser fires `open` on socket `sid` (app.js lines 386-391): the
socket becomes OPEN, the status observable shows "Connected", and the
handler sends the auth message — the first traffic on the connection.
(The `token` in the handler's closure is the cookie value read at
`connectWebSocket` time; a socket only exists when it was `some`.) -/
def socketOpen (sid : Nat) (st : ClientState) : ClientState :=
  match st.sockets[sid]?, st.token with
  | some sock, some tok =>
      if sock.readyState = wsConnecting then
        { st with
            sockets := modNth
              (fun s => { s with readyState := wsOpen,
                                 sent := s.sent ++ [authMsg tok] })
              sid st.sockets,
            statusText := "Connected" }
      else st
  | _, _ => st

/-- The browser fires `close` on socket `sid` (app.js lines 397-405): the
socket becomes CLOSED, the status observable shows "Disconnected", and —
unconditionally, clean or not — a `setTimeout` of 3000 ms is scheduled that
will call `connectWebSocket(url, onMessage)` with the closure's original
arguments. -/
def socketClose (sid : Nat) (st : ClientState) : ClientState :=
  match st.sockets[sid]? with
  | none => st
  | some sock =>
      if sock.readyState = wsClosed then st
      else
        { st with
            sockets := modNth (fun s => { s with readyState := wsClosed })
              sid st.sockets,
            statusText := "Disconnected",
            timers := st.timers ++ [⟨3000, sock.url, sock.handler⟩] }

/-- The next pending `setTimeout` fires (app.js lines 402-404): it calls
`connectWebSocket(url, onMessage)` and discards the returned socket — no
global variable is rebound. -/
def timerFire (st : ClientState) : ClientState :=
  match st.timers with
  | [] => st
  | t :: rest => (connectWebSocket t.url t.handler { st with timers := rest }).1

/-- `startWebRTC`'s socket setup (app.js lines 414-434): creates the
signaling and audio sockets and binds the two global variables to the
results. -/
def startWebRTCSockets (url1 url2 : String) (st : ClientState) : ClientState :=
  let p1 := connectWebSocket url1 .signaling st
  let st1 := { p1.1 with signalingSocket := p1.2 }
  let p2 := connectWebSocket url2 .audio st1
  { p2.1 with audioSocket := p2.2 }

/-- The offer message `startCall` sends:
`JSON.stringify({ type: "offer", peer_id: peerId, target_peer: remotePeerId,
offer: offer })` (app.js lines 487-492); the SDP payload is abstracted. -/
def offerMsg (pid tpid : String) : OutMsg :=
  .ctrl [("type", "offer"), ("peer_id", pid), ("target_peer", tpid),
         ("offer", "sdp")]

/-- `startCall()` (app.js lines 471-497).  If the signaling socket is
`undefined` or not OPEN: alert and return (state untouched).  Otherwise the
global `remotePeerId` is assigned the input field's value FIRST; if that
value is empty: alert and return.  Otherwise `createOffer` /
`setLocalDescription` run on `localConnection` (a `TypeError` — `none` —
if it is `undefined`; an `InvalidStateError` if it was closed), the offer
is sent on the signaling socket, and the call/disconnect buttons flip. -/
def startCall (fieldValue : String) (st : ClientState) : Option ClientState :=
  match st.signalingSocket with
  | none => some st
  | some sid =>
      match st.sockets[sid]? with
      | none => some st
      | some sock =>
          if sock.readyState ≠ wsOpen then some st
          else
            let st1 := { st with remotePeerId := some fieldValue }
            if fieldValue = "" then some st1
            else
              match st1.localConnection with
              | none => none
              | some lc =>
                  if lc.closed then none
                  else
                    let st2 := { st1 with
                      localConnection := some { lc with localDescSet := true } }
                    let st3 := { st2 with
                      sockets := modNth (wsSend (offerMsg st2.peerId fieldValue))
                        sid st2.sockets }
                    some { st3 with callDisabled := true,
                                    disconnectDisabled := false }

/-- `disconnectCall()` (app.js lines 516-526): calls
`localConnection.close()`, `audioSocket.close()`, `signalingSocket.close()`
— each a `TypeError` (`none`) when the variable is `undefined` — then
resets the buttons and the status observable.  It does NOT clear any timer,
does not null the globals, does not stop the media recorder and does not
release the input stream's tracks. -/
def disconnectCall (st : ClientState) : Option ClientState :=
  match st.localConnection with
  | none => none
  | some lc =>
      let st1 := { st with localConnection := some { lc with closed := true } }
      match st1.audioSocket with
      | none => none
      | some aid =>
          let st2 := { st1 with sockets := modNth closeSock aid st1.sockets }
          match st2.signalingSocket with
          | none => none
          | some sid =>
              let st3 := { st2 with
                sockets := modNth closeSock sid st2.sockets }
              some { st3 with callDisabled := false,
                              disconnectDisabled := true,
                              statusText := "Disconnected" }

/-- `toggleMute()` (app.js lines 528-532): flips `isMuted` and relabels the
mute button; nothing else. -/
def toggleMute (st : ClientState) : ClientState :=
  let m := !st.isMuted
  { st with isMuted := m, muteButtonText := if m then "Unmute" else "Mute" }

/-- The `mediaRecorder.ondataavailable` handler installed by `streamAudio`
(app.js lines 504-513): a captured frame is sent on the audio socket only
when the socket exists, is OPEN, and the client is not muted; otherwise
the frame is dropped (capture itself is unaffected). -/
def dataAvailable (frame : List Nat) (st : ClientState) : ClientState :=
  match st.audioSocket with
  | none => st
  | some aid =>
      match st.sockets[aid]? with
      | none => st
      | some sock =>
          if sock.readyState = wsOpen ∧ st.isMuted = false then
            { st with sockets := modNth (wsSend (.bin frame)) aid st.sockets }
          else st

/-! ## Session Negotiator: remote ICE-candidate handling

`startWebRTC`'s signaling handler dispatches `ice-candidate` messages to
`handleIceCandidate` (app.js line 419), whose definition is not among the
provided sources; the buffering behaviour is modelled from the spec. -/

/-- The remote-candidate side of a PeerSession: whether the remote session
description has been set, the candidates buffered while it was not, and the
candidates applied to the session, each list in arrival order. -/
structure PeerSessionModel where
  remoteDescSet : Bool
  pendingCandidates : List String
  appliedCandidates : List String
deriving DecidableEq

/-- Modelled from the spec: `addRemoteCandidate(candidate)` of the Session
Negotiator (the `handleIceCandidate` function that app.js line 419 invokes
is absent from the provided sources).  "candidates arriving before the
remote description is set must be buffered and applied afterward, not
dropped"; a candidate arriving after it is set is applied directly. -/
def addRemoteCandidate (c : String) (ps : PeerSessionModel) : PeerSessionModel :=
  if ps.remoteDescSet then
    { ps with appliedCandidates := ps.appliedCandidates ++ [c] }
  else
    { ps with pendingCandidates := ps.pendingCandidates ++ [c] }

/-- Modelled from the spec: setting the remote session description applies
all buffered candidates, in original arrival order, and empties the
buffer. -/
def setRemoteDescription (ps : PeerSessionModel) : PeerSessionModel :=
  { ps with remoteDescSet := true,
            appliedCandidates := ps.appliedCandidates ++ ps.pendingCandidates,
            pendingCandidates := [] }

/-! ## Audio Capture Pipeline: PCM quantization

The active `streamAudio` transmits compressed blob chunks; the spec's PCM
capture mode ("32-bit float samples are clamped to [-1, 1] and quantized to
signed 16-bit integers", §4.3) refers to worklet-based PCM conversion code
that is not among the provided sources; it is modelled from the spec, with
samples as rationals. -/

/-- Modelled from the spec: the clamping step of PCM-mode sample conversion
(§4.3) — a 32-bit float sample (modelled as a rational) is clamped
to [-1, 1]. -/
def clampPCM (s : ℚ) : ℚ := max (-1) (min 1 s)

/-- Modelled from the spec: PCM-mode sample conversion (§4.3) — each sample
is clamped to [-1, 1] and quantized to a signed 16-bit integer, with full
positive amplitude mapping to 32767, full negative to -32768, silence
to 0 (negative amplitudes scale by 32768, non-negative by 32767). -/
def quantizePCM (s : ℚ) : ℤ :=
  if clampPCM s < 0 then ⌈clampPCM s * 32768⌉ else ⌊clampPCM s * 32767⌋

/-! ## Helper lemmas -/

theorem modNth_length (f : α → α) (n : Nat) (l : List α) :
    (modNth f n l).length = l.length := by
  induction l generalizing n with
  | nil => cases n <;> rfl
  | cons a l ih =>
      cases n with
      | zero => rfl
      | succ n => simp [modNth, ih]

theorem modNth_same (f : α → α) (n : Nat) (l : List α) :
    (modNth f n l)[n]? = l[n]?.map f := by
  induction l generalizing n with
  | nil => cases n <;> rfl
  | cons a l ih =>
      cases n with
      | zero => simp [modNth]
      | succ n => simpa [modNth] using ih n

theorem modNth_other (f : α → α) {m n : Nat} (h : m ≠ n) (l : List α) :
    (modNth f n l)[m]? = l[m]? := by
  induction l generalizing m n with
  | nil => cases n <;> rfl
  | cons a l ih =>
      cases n with
      | zero =>
          cases m with
          | zero => exact absurd rfl h
          | succ m => simp [modNth]
      | succ n =>
          cases m with
          | zero => simp [modNth]
          | succ m =>
              simpa [modNth] using ih (fun hc => h (by simpa using hc))

theorem modNth_fix (f : α → α) (n : Nat) (l : List α)
    (h : ∀ a, l[n]? = some a → f a = a) : modNth f n l = l := by
  induction l generalizing n with
  | nil => cases n <;> rfl
  | cons a l ih =>
      cases n with
      | zero =>
          simpa [modNth] using h a (by simp)
      | succ n =>
          simp only [modNth, List.cons.injEq, true_and]
          exact ih n (fun b hb => h b (by simpa using hb))

theorem append_getElem_left {l : List α} {n : Nat} (h : n < l.length)
    (l2 : List α) : (l ++ l2)[n]? = l[n]? := by
  induction l generalizing n with
  | nil => simp at h
  | cons a l ih =>
      cases n with
      | zero => simp
      | succ n =>
          simp only [List.cons_append, List.getElem?_cons_succ]
          exact ih (by simpa using h)

theorem append_getElem_len (l : List α) (a : α) :
    (l ++ [a])[l.length]? = some a := by
  induction l with
  | nil => rfl
  | cons b l ih =>
      simp only [List.cons_append, List.length_cons, List.getElem?_cons_succ]
      exact ih

theorem foldl_addRemoteCandidate (cs : List String) (ps : PeerSessionModel)
    (hset : ps.remoteDescSet = false) :
    cs.foldl (fun a c => addRemoteCandidate c a) ps
      = { remoteDescSet := false,
          pendingCandidates := ps.pendingCandidates ++ cs,
          appliedCandidates := ps.appliedCandidates } := by
  induction cs generalizing ps with
  | nil => cases ps; simp_all
  | cons c cs ih =>
      simp only [List.foldl_cons]
      rw [show addRemoteCandidate c ps
            = { ps with pendingCandidates := ps.pendingCandidates ++ [c] } by
          simp [addRemoteCandidate, hset]]
      rw [ih _ (by simp [hset])]
      simp

theorem socketClose_timers (st : ClientState) (sid : Nat) (sock : Socket)
    (hsock : st.sockets[sid]? = some sock) (h3 : sock.readyState ≠ wsClosed) :
    (socketClose sid st).timers = st.timers ++ [⟨3000, sock.url, sock.handler⟩] := by
  unfold socketClose
  rw [hsock]
  simp [h3]

theorem closeSock_closeSock (s : Socket) : closeSock (closeSock s) = closeSock s := by
  unfold closeSock
  by_cases h : s.readyState = wsClosing ∨ s.readyState = wsClosed
  · rw [if_pos h, if_pos h]
  · rw [if_neg h]
    simp

theorem double_close_fix (l : List Socket) (ga gs n : Nat)
    (hn : n = ga ∨ n = gs) :
    ∀ b, (modNth closeSock gs (modNth closeSock ga l))[n]? = some b →
      closeSock b = b := by
  intro b hb
  by_cases hgs : n = gs
  · subst hgs
    rw [modNth_same] at hb
    obtain ⟨a, ha, hfa⟩ := Option.map_eq_some'.mp hb
    rw [← hfa]
    exact closeSock_closeSock a
  · rcases hn with h | h
    · subst h
      rw [modNth_other _ hgs, modNth_same] at hb
      obtain ⟨a, ha, hfa⟩ := Option.map_eq_some'.mp hb
      rw [← hfa]
      exact closeSock_closeSock a
    · exact absurd h hgs

/-! ## Concrete states for witnesses and counterexamples -/

/-- A mid-call client state: token present, both sockets OPEN and bound to
the globals, live peer connection, media recorder running, a remote peer
id from an earlier call attempt. -/
def stMidCall : ClientState where
  token := some "tok0"
  peerId := "p0"
  sockets := [⟨"wss://sig", .signaling, wsOpen, []⟩,
              ⟨"wss://aud", .audio, wsOpen, []⟩]
  timers := []
  signalingSocket := some 0
  audioSocket := some 1
  localConnection := some ⟨false, false⟩
  mediaRecorderActive := true
  isMuted := false
  remotePeerId := some "abc"
  callDisabled := false
  disconnectDisabled := true
  statusText := "Connected"
  muteButtonText := "Mute"

/-- A client state just after `connectWebSocket` created the signaling
socket: the socket is still CONNECTING with an empty outbound log. -/
def stFresh : ClientState where
  token := some "tok0"
  peerId := "p0"
  sockets := [⟨"wss://sig", .signaling, wsConnecting, []⟩]
  timers := []
  signalingSocket := some 0
  audioSocket := none
  localConnection := none
  mediaRecorderActive := false
  isMuted := false
  remotePeerId := none
  callDisabled := false
  disconnectDisabled := false
  statusText := ""
  muteButtonText := "Mute"

/-- `stMidCall` with one reconnection timer already pending. -/
def stTimer : ClientState :=
  { stMidCall with timers := [⟨3000, "wss://sig", .signaling⟩] }

/-- A state after an unexpected closure of both sockets, with the
reconnection timer pending: the globals still reference the closed
sockets. -/
def stDropped : ClientState :=
  { stMidCall with
      sockets := [⟨"wss://sig", .signaling, wsClosed, []⟩,
                  ⟨"wss://aud", .audio, wsClosed, []⟩],
      timers := [⟨3000, "wss://sig", .signaling⟩] }

/-! ## Claims -/

/-- C9: in PCM capture mode, every sample is clamped to [-1, 1] and
quantized to a signed 16-bit integer; 1.0 quantizes to 32767, -1.0
to -32768, and 0.0 to 0. -/
theorem C9_pcm_quantization :
    (∀ s : ℚ, -1 ≤ clampPCM s ∧ clampPCM s ≤ 1 ∧
      -32768 ≤ quantizePCM s ∧ quantizePCM s ≤ 32767) ∧
    quantizePCM 1 = 32767 ∧ quantizePCM (-1) = -32768 ∧ quantizePCM 0 = 0 := by
  refine ⟨fun s => ?_, ?_, ?_, ?_⟩
  · have hc1 : (-1 : ℚ) ≤ clampPCM s := le_max_left _ _
    have hc2 : clampPCM s ≤ 1 := max_le (by norm_num) (min_le_left _ _)
    refine ⟨hc1, hc2, ?_, ?_⟩
    · unfold quantizePCM
      split
      · have h1 : ((-32768 : ℤ) : ℚ) ≤ clampPCM s * 32768 := by
          push_cast
          nlinarith
        calc (-32768 : ℤ) = ⌈((-32768 : ℤ) : ℚ)⌉ := by rw [Int.ceil_intCast]
          _ ≤ ⌈clampPCM s * 32768⌉ := Int.ceil_le_ceil h1
      · rename_i hnot
        push_neg at hnot
        have h1 : ((0 : ℤ) : ℚ) ≤ clampPCM s * 32767 := by
          push_cast
          nlinarith
        have h2 : (0 : ℤ) ≤ ⌊clampPCM s * 32767⌋ := Int.le_floor.mpr h1
        omega
    · unfold quantizePCM
      split
      · rename_i hneg
        have h1 : clampPCM s * 32768 ≤ ((0 : ℤ) : ℚ) := by
          push_cast
          nlinarith
        have h2 : ⌈clampPCM s * 32768⌉ ≤ (0 : ℤ) := Int.ceil_le.mpr h1
        omega
      · have h1 : clampPCM s * 32767 ≤ ((32767 : ℤ) : ℚ) := by
          push_cast
          nlinarith
        calc ⌊clampPCM s * 32767⌋ ≤ ⌊((32767 : ℤ) : ℚ)⌋ := Int.floor_le_floor h1
          _ = 32767 := by rw [Int.floor_intCast]
  · have h : clampPCM 1 = 1 := by norm_num [clampPCM]
    rw [quantizePCM, h]
    norm_num
  · have h : clampPCM (-1) = -1 := by norm_num [clampPCM]
    rw [quantizePCM, h]
    norm_num
    rw [show ((-32768 : ℚ)) = ((-32768 : ℤ) : ℚ) by norm_num, Int.ceil_intCast]
  · have h : clampPCM 0 = 0 := by norm_num [clampPCM]
    rw [quantizePCM, h]
    norm_num

/-- C3: every ice-candidate arriving before the remote description is set
is buffered (not dropped) and, once the remote description is set, all
buffered candidates are applied in original arrival order. -/
theorem C3_ice_buffered_then_applied (cs : List String) (ps : PeerSessionModel)
    (hset : ps.remoteDescSet = false) (hpend : ps.pendingCandidates = []) :
    (cs.foldl (fun a c => addRemoteCandidate c a) ps).pendingCandidates = cs ∧
    (cs.foldl (fun a c => addRemoteCandidate c a) ps).appliedCandidates
      = ps.appliedCandidates ∧
    (setRemoteDescription
        (cs.foldl (fun a c => addRemoteCandidate c a) ps)).appliedCandidates
      = ps.appliedCandidates ++ cs ∧
    (setRemoteDescription
        (cs.foldl (fun a c => addRemoteCandidate c a) ps)).pendingCandidates
      = [] := by
  rw [foldl_addRemoteCandidate cs ps hset]
  simp [setRemoteDescription, hpend]

/-- C6: with an Open signaling socket, a live peer connection and a
non-empty remote peer id, `startCall` succeeds, appends exactly one offer
message — with `target_peer` the remote peer id and `peer_id` the local
PeerIdentity — to the signaling socket's outbound log, leaves every other
socket's log untouched, and moves the call state from Idle (call button
enabled) to Starting (call button disabled). -/
theorem C6_startCall_emits_one_offer (st : ClientState) (sid : Nat)
    (sock : Socket) (lc : RTCConn) (v : String)
    (hsid : st.signalingSocket = some sid)
    (hsock : st.sockets[sid]? = some sock)
    (hopen : sock.readyState = wsOpen)
    (hlc : st.localConnection = some lc)
    (hlive : lc.closed = false)
    (hv : v ≠ "")
    (hidle : st.callDisabled = false) :
    ∃ st2, startCall v st = some st2 ∧
      st2.sockets[sid]?
        = some { sock with sent := sock.sent ++ [offerMsg st.peerId v] } ∧
      (∀ j, j ≠ sid → st2.sockets[j]? = st.sockets[j]?) ∧
      st2.callDisabled = true ∧
      st2.remotePeerId = some v ∧
      ctrlLookup "target_peer" (offerMsg st.peerId v) = some v ∧
      ctrlLookup "peer_id" (offerMsg st.peerId v) = some st.peerId := by
  refine
    ⟨{ st with
        remotePeerId := some v
        localConnection := some { lc with localDescSet := true }
        sockets := modNth (wsSend (offerMsg st.peerId v)) sid st.sockets
        callDisabled := true
        disconnectDisabled := false },
      ?_, ?_, ?_, rfl, rfl, rfl, rfl⟩
  · simp [startCall, hsid, hsock, hopen, hlc, hlive, hv, wsOpen]
  · rw [modNth_same, hsock]
    simp [wsSend, hopen]
  · intro j hj
    exact modNth_other _ hj _

/-- Witness for C6: a concrete call attempt from the mid-call state. -/
theorem C6_startCall_emits_one_offer_witness :
    ∃ st2, startCall "peer9" stMidCall = some st2 ∧
      st2.sockets[(0 : Nat)]?
        = some (⟨"wss://sig", .signaling, wsOpen,
                 [offerMsg stMidCall.peerId "peer9"]⟩ : Socket) ∧
      (∀ j, j ≠ 0 → st2.sockets[j]? = stMidCall.sockets[j]?) ∧
      st2.callDisabled = true ∧
      st2.remotePeerId = some "peer9" ∧
      ctrlLookup "target_peer" (offerMsg stMidCall.peerId "peer9") = some "peer9" ∧
      ctrlLookup "peer_id" (offerMsg stMidCall.peerId "peer9")
        = some stMidCall.peerId :=
  C6_startCall_emits_one_offer stMidCall 0 ⟨"wss://sig", .signaling, wsOpen, []⟩
    ⟨false, false⟩ "peer9" rfl rfl rfl rfl rfl (by decide) rfl

/-- C1 counterexample: from a concrete mid-call state with one pending
reconnection timer, `disconnectCall` succeeds but leaves the pending timer
in place (nothing is cancelled), and when the locally-initiated close of
the signaling socket completes, its `onclose` handler schedules a further
reconnection: the timer count grows to 2. -/
theorem C1_counterexample :
    (disconnectCall stTimer).map ClientState.timers
      = some [⟨3000, "wss://sig", .signaling⟩] ∧
    (disconnectCall stTimer).map (fun st1 => (socketClose 0 st1).timers.length)
      = some 2 := ⟨rfl, rfl⟩

/-- C1 amended: `disconnectCall` closes the sockets but cancels no pending
reconnection timer (the timer list is preserved verbatim), and a
locally-initiated close behaves like an unexpected one — when any socket's
close event later fires, a reconnection attempt is scheduled; the code
does not distinguish local from remote closure. -/
theorem C1_disconnect_no_cancellation (st : ClientState) (lc : RTCConn)
    (ga gs : Nat)
    (hlc : st.localConnection = some lc) (hga : st.audioSocket = some ga)
    (hgs : st.signalingSocket = some gs) :
    ∃ st1, disconnectCall st = some st1 ∧
      st1.timers = st.timers ∧
      ∀ sid sock, st1.sockets[sid]? = some sock → sock.readyState ≠ wsClosed →
        (socketClose sid st1).timers
          = st1.timers ++ [⟨3000, sock.url, sock.handler⟩] := by
  refine
    ⟨{ st with
        localConnection := some { lc with closed := true }
        sockets := modNth closeSock gs (modNth closeSock ga st.sockets)
        callDisabled := false
        disconnectDisabled := true
        statusText := "Disconnected" },
      ?_, rfl, fun sid sock hs h3 => socketClose_timers _ sid sock hs h3⟩
  simp [disconnectCall, hlc, hga, hgs]

/-- Witness for C1's amended theorem at a state with a pending timer. -/
theorem C1_disconnect_no_cancellation_witness :
    ∃ st1, disconnectCall stTimer = some st1 ∧
      st1.timers = stTimer.timers ∧
      ∀ sid sock, st1.sockets[sid]? = some sock → sock.readyState ≠ wsClosed →
        (socketClose sid st1).timers
          = st1.timers ++ [⟨3000, sock.url, sock.handler⟩] :=
  C1_disconnect_no_cancellation stTimer ⟨false, false⟩ 1 0 rfl rfl rfl

/-- C4 counterexample: calling `disconnectCall` twice from the mid-call
state leaves the media recorder still running (audio capture is NOT
stopped, the input device NOT released); and from a state where
`localConnection` is undefined the first call throws a TypeError. -/
theorem C4_counterexample :
    ((disconnectCall stMidCall).bind disconnectCall).map
        ClientState.mediaRecorderActive = some true ∧
    disconnectCall { stMidCall with localConnection := none } = none :=
  ⟨rfl, rfl⟩

/-- C4 amended: from any state in which the peer connection and both
socket globals are defined, `disconnectCall` succeeds and calling it a
second time is an error-free no-op returning the identical state (peer
session closed, buttons reset, status "Disconnected") — but the media
recorder keeps running and the socket globals stay bound. -/
theorem C4_disconnect_idempotent (st : ClientState) (lc : RTCConn)
    (ga gs : Nat)
    (hlc : st.localConnection = some lc) (hga : st.audioSocket = some ga)
    (hgs : st.signalingSocket = some gs) :
    ∃ st1, disconnectCall st = some st1 ∧
      disconnectCall st1 = some st1 ∧
      st1.localConnection = some { lc with closed := true } ∧
      st1.callDisabled = false ∧
      st1.disconnectDisabled = true ∧
      st1.statusText = "Disconnected" ∧
      st1.mediaRecorderActive = st.mediaRecorderActive ∧
      st1.signalingSocket = st.signalingSocket ∧
      st1.audioSocket = st.audioSocket := by
  have hfix1 :
      modNth closeSock ga (modNth closeSock gs (modNth closeSock ga st.sockets))
        = modNth closeSock gs (modNth closeSock ga st.sockets) :=
    modNth_fix _ _ _ (double_close_fix st.sockets ga gs ga (Or.inl rfl))
  have hfix2 :
      modNth closeSock gs (modNth closeSock gs (modNth closeSock ga st.sockets))
        = modNth closeSock gs (modNth closeSock ga st.sockets) :=
    modNth_fix _ _ _ (double_close_fix st.sockets ga gs gs (Or.inr rfl))
  refine
    ⟨{ st with
        localConnection := some { lc with closed := true }
        sockets := modNth closeSock gs (modNth closeSock ga st.sockets)
        callDisabled := false
        disconnectDisabled := true
        statusText := "Disconnected" },
      ?_, ?_, rfl, rfl, rfl, rfl, rfl, rfl, rfl⟩
  · simp [disconnectCall, hlc, hga, hgs]
  · simp [disconnectCall, hga, hgs, hfix1, hfix2]

/-- Witness for C4's amended theorem at the mid-call state. -/
theorem C4_disconnect_idempotent_witness :
    ∃ st1, disconnectCall stMidCall = some st1 ∧
      disconnectCall st1 = some st1 ∧
      st1.localConnection
        = some { (⟨false, false⟩ : RTCConn) with closed := true } ∧
      st1.callDisabled = false ∧
      st1.disconnectDisabled = true ∧
      st1.statusText = "Disconnected" ∧
      st1.mediaRecorderActive = stMidCall.mediaRecorderActive ∧
      st1.signalingSocket = stMidCall.signalingSocket ∧
      st1.audioSocket = stMidCall.audioSocket :=
  C4_disconnect_idempotent stMidCall ⟨false, false⟩ 1 0 rfl rfl rfl

/-- C2 counterexample: on open, the concrete fresh socket's first (and
only) message is the auth control message, and that message carries no
`peer_id` field at all — only the token — contradicting the claim that it
contains both the credential and the local PeerIdentity. -/
theorem C2_counterexample :
    ((socketOpen 0 stFresh).sockets[(0 : Nat)]?).map Socket.sent
      = some [authMsg "tok0"] ∧
    ctrlLookup "peer_id" (authMsg "tok0") = none ∧
    ctrlLookup "token" (authMsg "tok0") = some "tok0" := ⟨rfl, rfl, rfl⟩

/-- C2 amended: on successful establishment of any socket created with a
token present, the first message sent on the connection is the single
`auth` control message, before any other traffic — but it contains the
credential only (`type` and `token` fields); the local PeerIdentity is
not included. -/
theorem C2_auth_first_token_only (st : ClientState) (sid : Nat)
    (sock : Socket) (tok : String)
    (hsock : st.sockets[sid]? = some sock)
    (hconn : sock.readyState = wsConnecting)
    (hsent : sock.sent = [])
    (htok : st.token = some tok) :
    ((socketOpen sid st).sockets[sid]?).map Socket.sent
      = some [authMsg tok] ∧
    (∀ j, j ≠ sid → (socketOpen sid st).sockets[j]? = st.sockets[j]?) ∧
    ctrlLookup "type" (authMsg tok) = some "auth" ∧
    ctrlLookup "token" (authMsg tok) = some tok ∧
    ctrlLookup "peer_id" (authMsg tok) = none := by
  refine ⟨?_, ?_, rfl, rfl, rfl⟩
  · simp [socketOpen, hsock, htok, hconn, modNth_same, hsent]
  · intro j hj
    simp only [socketOpen, hsock, htok]
    rw [if_pos hconn]
    exact modNth_other _ hj _

/-- Witness for C2's amended theorem on the fresh connecting socket. -/
theorem C2_auth_first_token_only_witness :
    ((socketOpen 0 stFresh).sockets[(0 : Nat)]?).map Socket.sent
      = some [authMsg "tok0"] ∧
    (∀ j, j ≠ 0 → (socketOpen 0 stFresh).sockets[j]? = stFresh.sockets[j]?) ∧
    ctrlLookup "type" (authMsg "tok0") = some "auth" ∧
    ctrlLookup "token" (authMsg "tok0") = some "tok0" ∧
    ctrlLookup "peer_id" (authMsg "tok0") = none :=
  C2_auth_first_token_only stFresh 0 ⟨"wss://sig", .signaling, wsConnecting, []⟩
    "tok0" rfl rfl rfl rfl

/-- C7 counterexample: from a state whose stored remote peer id is "abc"
and whose signaling socket is Open, `startCall` with an empty input field
overwrites the stored remote peer id with the empty string — the client
state is NOT left unchanged. -/
theorem C7_counterexample :
    (startCall "" stMidCall).map ClientState.remotePeerId = some (some "") ∧
    stMidCall.remotePeerId = some "abc" := ⟨rfl, rfl⟩

/-- C7 amended: with an Open signaling socket, a call attempt with an
empty remote peer id emits zero signaling messages and leaves everything —
sockets, timers, call-state flags, peer connection — unchanged except the
stored remote peer id, which is overwritten with the empty field value. -/
theorem C7_startCall_empty_no_message (st : ClientState) (sid : Nat)
    (sock : Socket)
    (hsid : st.signalingSocket = some sid)
    (hsock : st.sockets[sid]? = some sock)
    (hopen : sock.readyState = wsOpen) :
    startCall "" st = some { st with remotePeerId := some "" } := by
  simp [startCall, hsid, hsock, hopen, wsOpen]

/-- Witness for C7's amended theorem at the mid-call state. -/
theorem C7_startCall_empty_no_message_witness :
    startCall "" stMidCall = some { stMidCall with remotePeerId := some "" } :=
  C7_startCall_empty_no_message stMidCall 0 ⟨"wss://sig", .signaling, wsOpen, []⟩
    rfl rfl rfl

/-- C5: when a socket with handlers attached closes while no other timer
is pending, exactly one reconnection timer is scheduled, with the fixed
3000 ms delay and the closed socket's original `open` parameters (url and
handler); when it fires, `connectWebSocket` creates a fresh CONNECTING
socket with those same parameters, and that socket's `open` event sends
the auth message as its first traffic. -/
theorem C5_unexpected_close_reconnects_once (st : ClientState) (sid : Nat)
    (sock : Socket) (tok : String)
    (hsock : st.sockets[sid]? = some sock)
    (h3 : sock.readyState ≠ wsClosed)
    (htok : st.token = some tok)
    (hT : st.timers = []) :
    (socketClose sid st).timers = [⟨3000, sock.url, sock.handler⟩] ∧
    (timerFire (socketClose sid st)).timers = [] ∧
    (timerFire (socketClose sid st)).sockets[st.sockets.length]?
      = some ⟨sock.url, sock.handler, wsConnecting, []⟩ ∧
    (socketOpen st.sockets.length
        (timerFire (socketClose sid st))).sockets[st.sockets.length]?
      = some ⟨sock.url, sock.handler, wsOpen, [authMsg tok]⟩ := by
  have h1 : socketClose sid st
      = { st with
            sockets := modNth (fun s => { s with readyState := wsClosed })
              sid st.sockets
            statusText := "Disconnected"
            timers := st.timers ++ [⟨3000, sock.url, sock.handler⟩] } := by
    unfold socketClose
    rw [hsock]
    simp [h3]
  have h2 : timerFire (socketClose sid st)
      = { st with
            sockets := modNth (fun s => { s with readyState := wsClosed })
              sid st.sockets
              ++ [⟨sock.url, sock.handler, wsConnecting, []⟩]
            statusText := "Disconnected"
            timers := [] } := by
    rw [h1]
    unfold timerFire
    simp [hT, connectWebSocket, htok]
  have hnew : (timerFire (socketClose sid st)).sockets[st.sockets.length]?
      = some ⟨sock.url, sock.handler, wsConnecting, []⟩ := by
    rw [h2]
    have := append_getElem_len
      (modNth (fun s => { s with readyState := wsClosed }) sid st.sockets)
      (⟨sock.url, sock.handler, wsConnecting, []⟩ : Socket)
    rwa [modNth_length] at this
  refine ⟨?_, ?_, hnew, ?_⟩
  · rw [h1, hT]
    rfl
  · rw [h2]
  · unfold socketOpen
    rw [hnew, show (timerFire (socketClose sid st)).token = some tok from by
      rw [h2]; exact htok]
    simp [modNth_same, hnew]

/-- Witness for C5: the signaling socket of the mid-call state drops. -/
theorem C5_unexpected_close_reconnects_once_witness :
    (socketClose 0 stMidCall).timers = [⟨3000, "wss://sig", .signaling⟩] ∧
    (timerFire (socketClose 0 stMidCall)).timers = [] ∧
    (timerFire (socketClose 0 stMidCall)).sockets[stMidCall.sockets.length]?
      = some ⟨"wss://sig", .signaling, wsConnecting, []⟩ ∧
    (socketOpen stMidCall.sockets.length
        (timerFire (socketClose 0 stMidCall))).sockets[stMidCall.sockets.length]?
      = some ⟨"wss://sig", .signaling, wsOpen, [authMsg "tok0"]⟩ :=
  C5_unexpected_close_reconnects_once stMidCall 0
    ⟨"wss://sig", .signaling, wsOpen, []⟩ "tok0" rfl (by decide) rfl rfl

/-- C8: a frame captured while the client is muted is discarded before it
reaches any socket — the whole state, outbound logs included, is
unchanged — while the media recorder keeps running; and `toggleMute`
changes only the mute flag (and the button label), leaving sockets,
globals, timers, peer connection, recorder and status untouched. -/
theorem C8_muted_frames_discarded (st : ClientState) (frame : List Nat)
    (hm : st.isMuted = true) :
    dataAvailable frame st = st ∧
    (toggleMute st).isMuted = !st.isMuted ∧
    (toggleMute st).sockets = st.sockets ∧
    (toggleMute st).mediaRecorderActive = st.mediaRecorderActive ∧
    (toggleMute st).signalingSocket = st.signalingSocket ∧
    (toggleMute st).audioSocket = st.audioSocket ∧
    (toggleMute st).timers = st.timers ∧
    (toggleMute st).localConnection = st.localConnection ∧
    (toggleMute st).statusText = st.statusText := by
  refine ⟨?_, rfl, rfl, rfl, rfl, rfl, rfl, rfl, rfl⟩
  unfold dataAvailable
  cases hga : st.audioSocket with
  | none => rfl
  | some ga =>
      cases hs : st.sockets[ga]? with
      | none => simp [hs]
      | some sock => simp [hs, hm]

/-- Witness for C8: a concrete frame captured in the muted mid-call
state. -/
theorem C8_muted_frames_discarded_witness :
    dataAvailable [7, 7, 7] { stMidCall with isMuted := true }
      = { stMidCall with isMuted := true } ∧
    (toggleMute { stMidCall with isMuted := true }).isMuted
      = !({ stMidCall with isMuted := true }).isMuted ∧
    (toggleMute { stMidCall with isMuted := true }).sockets
      = ({ stMidCall with isMuted := true }).sockets ∧
    (toggleMute { stMidCall with isMuted := true }).mediaRecorderActive
      = ({ stMidCall with isMuted := true }).mediaRecorderActive ∧
    (toggleMute { stMidCall with isMuted := true }).signalingSocket
      = ({ stMidCall with isMuted := true }).signalingSocket ∧
    (toggleMute { stMidCall with isMuted := true }).audioSocket
      = ({ stMidCall with isMuted := true }).audioSocket ∧
    (toggleMute { stMidCall with isMuted := true }).timers
      = ({ stMidCall with isMuted := true }).timers ∧
    (toggleMute { stMidCall with isMuted := true }).localConnection
      = ({ stMidCall with isMuted := true }).localConnection ∧
    (toggleMute { stMidCall with isMuted := true }).statusText
      = ({ stMidCall with isMuted := true }).statusText :=
  C8_muted_frames_discarded { stMidCall with isMuted := true } [7, 7, 7] rfl

/-- C10: after an unexpected closure, the scheduled reconnection creates a
new socket but discards it without rebinding the globals: the signaling
and audio globals still reference the original closed sockets, the
reconnected socket starts with an empty outbound log, and both
`startCall` (the offer path) and the audio-frame path are no-ops on the
resulting state — no message is ever sent on the reconnected transport by
either path. -/
theorem C10_reconnect_socket_discarded (st : ClientState) (gs ga : Nat)
    (sg sa : Socket) (t : Timer) (rest : List Timer) (tok : String)
    (hgs : st.signalingSocket = some gs) (hga : st.audioSocket = some ga)
    (hsg : st.sockets[gs]? = some sg) (hsa : st.sockets[ga]? = some sa)
    (hcg : sg.readyState = wsClosed) (hca : sa.readyState = wsClosed)
    (hgl : gs < st.sockets.length) (hal : ga < st.sockets.length)
    (ht : st.timers = t :: rest) (htok : st.token = some tok) :
    (timerFire st).signalingSocket = some gs ∧
    (timerFire st).audioSocket = some ga ∧
    (timerFire st).sockets[st.sockets.length]?
      = some ⟨t.url, t.handler, wsConnecting, []⟩ ∧
    (∀ v, startCall v (timerFire st) = some (timerFire st)) ∧
    (∀ frame, dataAvailable frame (timerFire st) = timerFire st) := by
  have h2 : timerFire st
      = { st with
            sockets := st.sockets ++ [⟨t.url, t.handler, wsConnecting, []⟩]
            timers := rest } := by
    unfold timerFire
    rw [ht]
    simp [connectWebSocket, htok]
  have hsg2 : (timerFire st).sockets[gs]? = some sg := by
    rw [h2]
    exact (append_getElem_left hgl _).trans hsg
  have hsa2 : (timerFire st).sockets[ga]? = some sa := by
    rw [h2]
    exact (append_getElem_left hal _).trans hsa
  refine ⟨?_, ?_, ?_, ?_, ?_⟩
  · rw [h2]
    exact hgs
  · rw [h2]
    exact hga
  · rw [h2]
    exact append_getElem_len st.sockets _
  · intro v
    have hss : (timerFire st).signalingSocket = some gs := by rw [h2]; exact hgs
    simp [startCall, hss, hsg2, hcg, wsClosed, wsOpen]
  · intro frame
    have has2 : (timerFire st).audioSocket = some ga := by rw [h2]; exact hga
    simp [dataAvailable, has2, hsa2, hca, wsClosed, wsOpen]

/-- Witness for C10 at the dropped-connection state. -/
theorem C10_reconnect_socket_discarded_witness :
    (timerFire stDropped).signalingSocket = some 0 ∧
    (timerFire stDropped).audioSocket = some 1 ∧
    (timerFire stDropped).sockets[stDropped.sockets.length]?
      = some ⟨"wss://sig", .signaling, wsConnecting, []⟩ ∧
    (∀ v, startCall v (timerFire stDropped) = some (timerFire stDropped)) ∧
    (∀ frame, dataAvailable frame (timerFire stDropped) = timerFire stDropped) :=
  C10_reconnect_socket_discarded stDropped 0 1
    ⟨"wss://sig", .signaling, wsClosed, []⟩ ⟨"wss://aud", .audio, wsClosed, []⟩
    ⟨3000, "wss://sig", .signaling⟩ [] "tok0"
    rfl rfl rfl rfl rfl rfl (by decide) (by decide) rfl rfl

/-- Witness for C3 at a concrete two-candidate run. -/
theorem C3_ice_buffered_then_applied_witness :
    (["cand0", "cand1"].foldl (fun a c => addRemoteCandidate c a)
        (⟨false, [], []⟩ : PeerSessionModel)).pendingCandidates
      = ["cand0", "cand1"] ∧
    (["cand0", "cand1"].foldl (fun a c => addRemoteCandidate c a)
        (⟨false, [], []⟩ : PeerSessionModel)).appliedCandidates = [] ∧
    (setRemoteDescription (["cand0", "cand1"].foldl
        (fun a c => addRemoteCandidate c a)
        (⟨false, [], []⟩ : PeerSessionModel))).appliedCandidates
      = [] ++ ["cand0", "cand1"] ∧
    (setRemoteDescription (["cand0", "cand1"].foldl
        (fun a c => addRemoteCandidate c a)
        (⟨false, [], []⟩ : PeerSessionModel))).pendingCandidates = [] :=
  C3_ice_buffered_then_applied ["cand0", "cand1"] ⟨false, [], []⟩ rfl rfl

end AutoEngage
